import Mathlib

/-!
Verification development for the agent execution engine of the `melton`
repository.  The definitions below are a shallow embedding, translated from
`src/backend/app`, of:

* the agentic loop of `AgentExecutionService.execute_conversation`
  (`services/execution_service.py`),
* the tool registry singleton (`tools/registry.py`),
* the output transformer (`utils/output_transformer.py`),
* the generic HTTP tool's input validation (`tools/api_tool.py`),
* the structured-output paths of the three provider adapters
  (`llm/openai_provider.py`, `llm/anthropic_provider.py`,
  `llm/google_provider.py`),
* the platform-tool rate limiter (`tools/platforms/base_platform_tool.py`).

Python dicts are embedded as insertion-ordered association lists, Python
exceptions as explicit outcome values, and network/database collaborators as
oracle parameters.  The theorems at the end of the file settle the frozen
claims about this code.
-/

namespace Melton

/-- JSON-like values: the embedding of Python dict / list / scalar payloads
that flow through tool inputs, tool results and API responses. -/
inductive Json where
  | null
  | bool (b : Bool)
  | num (n : Int)
  | str (s : String)
  | arr (elems : List Json)
  | obj (fields : List (String × Json))

/-- Association-list lookup: embedding of Python `dict.get(k)` (dicts keep
unique keys, so first match is the binding). -/
def assocLookup {β : Type} (l : List (String × β)) (k : String) : Option β :=
  match l with
  | [] => none
  | (k', v) :: rest => if k' = k then some v else assocLookup rest k

/-- Association-list update: embedding of Python `d[k] = v` on a dict — an
existing key keeps its insertion position, a new key is appended. -/
def updAssoc {β : Type} (l : List (String × β)) (k : String) (v : β) :
    List (String × β) :=
  match l with
  | [] => [(k, v)]
  | (k', v') :: rest =>
      if k' = k then (k, v) :: rest else (k', v') :: updAssoc rest k v

/-- Python truthiness of a JSON value (`None`, `False`, `0`, `""`, `[]`,
and the empty dict are falsy). -/
def jsonTruthy : Json → Bool
  | .null => false
  | .bool b => b
  | .num n => n ≠ 0
  | .str s => s ≠ ""
  | .arr elems => !elems.isEmpty
  | .obj fields => !fields.isEmpty

mutual

/-- Python `repr()` of a JSON-like value (strings quoted). -/
def pyRepr : Json → String
  | .null => "None"
  | .bool true => "True"
  | .bool false => "False"
  | .num n => toString n
  | .str s => "\x27" ++ s ++ "\x27"
  | .arr elems => "[" ++ pyReprList elems ++ "]"
  | .obj fields => "\x7b" ++ pyReprFields fields ++ "\x7d"

/-- Comma-joined `repr()` of list elements. -/
def pyReprList : List Json → String
  | [] => ""
  | [x] => pyRepr x
  | x :: rest => pyRepr x ++ ", " ++ pyReprList rest

/-- Comma-joined `repr()` of dict entries. -/
def pyReprFields : List (String × Json) → String
  | [] => ""
  | [(k, v)] => "\x27" ++ k ++ "\x27: " ++ pyRepr v
  | (k, v) :: rest => "\x27" ++ k ++ "\x27: " ++ pyRepr v ++ ", " ++ pyReprFields rest

end

/-- Python `str()` of a JSON-like value: a bare string stays bare, containers
render like `repr()`. -/
def pyStr : Json → String
  | .str s => s
  | v => pyRepr v

/-! Tool registry (`app/tools/registry.py`)

`ToolRegistry` uses a singleton `__new__`: the class attribute `_instance`
holds the one instance, whose `_tools` dict is created only the first time.
`RegistryProcessState` embeds that class-level state for a whole process; tool
instances are abstracted by identifiers (`Nat`), since only identity matters
for resolution. -/

/-- Process-wide class state of `ToolRegistry`: whether `_instance` has been
created, and the singleton's `_tools` dict. -/
structure RegistryProcessState where
  instanceCreated : Bool
  tools : List (String × Nat)

/-- Embedding of `ToolRegistry.__new__` (registry.py lines 17-22): create the singleton and
its empty `_tools` on first call, return the existing instance afterwards. -/
def toolRegistryNew (p : RegistryProcessState) : RegistryProcessState :=
  if p.instanceCreated then p else { instanceCreated := true, tools := [] }

/-- Embedding of `AgentExecutionService.__init__` (execution_service.py line 41): the
service's `self.tool_registry = ToolRegistry()` — it only invokes the
singleton constructor; the class-level state is what the service sees. -/
def agentExecutionServiceInit (p : RegistryProcessState) : RegistryProcessState :=
  toolRegistryNew p

/-- Embedding of `ToolRegistry.register` (registry.py line 32): `self._tools[tool_name] = tool`. -/
def registryRegister (p : RegistryProcessState) (toolName : String) (tool : Nat) :
    RegistryProcessState :=
  { p with tools := updAssoc p.tools toolName tool }

/-- Embedding of `ToolRegistry.get` (registry.py line 54): `self._tools.get(tool_name)`. -/
def registryGetTool (p : RegistryProcessState) (toolName : String) : Option Nat :=
  assocLookup p.tools toolName

/-! Output transformer (`app/utils/output_transformer.py`)

`_extract_fields` maps output field names to JSONPath expressions and
evaluates them with `jsonpath_ng`.  The embedding models the dotted-child
fragment of JSONPath that the tool configuration uses: `"a.b"` parses to the
segment list `["a", "b"]`, each segment selecting a field of a JSON object.
A `none` parse models `jsonpath_parse` raising (caught at lines 82-84). -/

/-- Split of a character list at the `.` separators (the semantics of
Python `"a.b".split(".")`, written structurally). -/
def splitCharsOnDot (cs : List Char) : List String :=
  match cs with
  | [] => [""]
  | c :: rest =>
      if c = '.' then "" :: splitCharsOnDot rest
      else
        match splitCharsOnDot rest with
        | [] => [String.mk [c]]
        | s :: ss => String.mk (c :: s.toList) :: ss

/-- Parse of a dotted JSONPath expression (`jsonpath_parse`, line 63); `none`
embeds the exception branch for malformed expressions. -/
def jsonpathSegments (expr : String) : Option (List String) :=
  let segments := splitCharsOnDot expr.toList
  if expr = "" ∨ segments.any (fun s => s = "") then none else some segments

/-- Embedding of `jsonpath.find(data)` (line 66) for the dotted-child fragment: descend
through object fields; a missing field or a non-object yields no matches. -/
def jsonpathFind (path : List String) (data : Json) : List Json :=
  match path with
  | [] => [data]
  | field :: rest =>
      match data with
      | .obj fields =>
          match assocLookup fields field with
          | some v => jsonpathFind rest v
          | none => []
      | _ => []

/-- Processing of one mapping entry by `_extract_fields` (lines 60-84): no
match (or a parse exception) yields `null`, one match the value itself,
several matches an array. -/
def extractStep (data : Json) (result : List (String × Json))
    (kv : String × String) : List (String × Json) :=
  match jsonpathSegments kv.2 with
  | none => updAssoc result kv.1 Json.null
  | some path =>
      match jsonpathFind path data with
      | [] => updAssoc result kv.1 Json.null
      | [v] => updAssoc result kv.1 v
      | vs => updAssoc result kv.1 (Json.arr vs)

/-- Embedding of `OutputTransformer._extract_fields` (lines 45-86): one
output entry per mapping entry, in mapping order. -/
def extractFields (data : Json) (mapping : List (String × String)) :
    List (String × Json) :=
  mapping.foldl (extractStep data) []

/-- Whether a mapping entry's path expression has no match in `data`
(including the parse-exception case, which `_extract_fields` also maps to
`null`). -/
def jsonpathNoMatch (expr : String) (data : Json) : Bool :=
  match jsonpathSegments expr with
  | none => true
  | some path => (jsonpathFind path data).isEmpty

/-- Embedding of `OutputTransformer.transform` (lines 14-43): dispatch on output mode;
unknown modes and `llm` mode pass the response through. -/
def outputTransform (apiResponse : Json) (outputMode : String)
    (outputMapping : List (String × String)) : Json :=
  if outputMode = "full" then apiResponse
  else if outputMode = "extract" then Json.obj (extractFields apiResponse outputMapping)
  else if outputMode = "llm" then apiResponse
  else apiResponse

/-! Generic HTTP tool (`app/tools/api_tool.py`)

`APITool.execute` validates required input fields against the configured
input schema before calling `_make_api_call`; the HTTP exchange itself is an
oracle parameter (`Except`: `.error` embeds any exception raised while making
the call, `.ok` the parsed JSON response).  The returned pair also counts how
many times `_make_api_call` ran, so "the request was never issued" is
observable. -/

/-- The fields of the tool's configured `input_schema` that
`_validate_required_params` reads: the `required` list and each property's
optional `description`. -/
structure APIInputSchema where
  required : List String
  properties : List (String × Option String)

/-- Python `field not in input_data or not input_data[field]` (api_tool.py
line 310): a declared field counts as missing when absent or falsy. -/
def missingOrEmpty (inputData : List (String × Json)) (field : String) : Bool :=
  match assocLookup inputData field with
  | none => true
  | some v => !jsonTruthy v

/-- Embedding of `APITool._validate_required_params` (api_tool.py lines 295-321): a
required field is missing when absent from the input or when its value is
falsy; the error message lists each missing field with its description. -/
def validateRequiredParams (inputSchema : APIInputSchema)
    (inputData : List (String × Json)) : Option String :=
  if inputSchema.required.isEmpty then none
  else
    let missingFields := inputSchema.required.filter (missingOrEmpty inputData)
    if missingFields.isEmpty then none
    else
      let described := missingFields.map (fun field =>
        field ++ " (" ++
          ((assocLookup inputSchema.properties field).bind id).getD field ++ ")")
      some ("Missing required parameters: " ++ String.intercalate ", " described ++
        ". You must provide these parameters to call this tool. " ++
        "Do not call the tool with empty input \x7b\x7d.")

/-- Result dict of a tool `execute`, as the orchestrator consumes it: the
`success` flag plus the optional `error`, `result` and `data` entries
(different tools populate different keys; `success` defaults to `True` in the
orchestrator for dicts that omit it, so omitting tools are embedded with
`success := true`). -/
structure ExecResult where
  success : Bool
  error : Option String := none
  result : Option Json := none
  data : Option Json := none

/-- Embedding of `APITool.execute` (api_tool.py lines 40-84): validate, then make the API
call and transform the output; every exception is caught and converted to a
`success := false` result.  Returns the result and the number of
`_make_api_call` invocations. -/
def apiToolExecute (inputSchema : APIInputSchema) (outputMode : String)
    (outputMapping : List (String × String)) (apiCall : Except String Json)
    (inputData : List (String × Json)) : ExecResult × Nat :=
  match validateRequiredParams inputSchema inputData with
  | some validationError =>
      ({ success := false, error := some validationError }, 0)
  | none =>
      match apiCall with
      | .error e => ({ success := false, error := some e }, 1)
      | .ok apiResponse =>
          ({ success := true,
             data := some (outputTransform apiResponse outputMode outputMapping) }, 1)

/-! Structured output across provider adapters

For claim-relevant behavior the observable of `generate_structured_output` is
(a) which kinds of generation request the adapter issues, in order, and
(b) which text it hands to `json.loads`.  Wire serialization is abstracted;
the text-level brace scan (`find`/`rfind`) is embedded exactly. -/

/-- Kind of generation request issued while producing structured output:
a strict schema-constrained request, or an unconstrained request whose system
prompt embeds the schema as instructions. -/
inductive SOAttempt where
  | strict
  | schemaPrompt
  deriving DecidableEq

/-- Index of the first occurrence of `c` (Python `str.find`, as an option). -/
def firstIdxOf (cs : List Char) (c : Char) : Option Nat :=
  cs.findIdx? (fun x => x = c)

/-- Index of the last occurrence of `c` (Python `str.rfind`, as an option). -/
def lastIdxOf (cs : List Char) (c : Char) : Option Nat :=
  match firstIdxOf cs.reverse c with
  | some k => some (cs.length - 1 - k)
  | none => none

/-- The brace scan shared by the fallback paths (openai_provider.py lines
158-164, anthropic_provider.py lines 170-177): strip, then slice from the
first `LBRACE` to the last `RBRACE` inclusive; if either is absent the whole
stripped text goes to `json.loads`.  (`Char.ofNat 123` / `125` are the brace
characters.) -/
def extractJsonSubstring (text : String) : String :=
  match firstIdxOf text.trim.toList (Char.ofNat 123),
        lastIdxOf text.trim.toList (Char.ofNat 125) with
  | some startIdx, some endIdx =>
      String.mk ((text.trim.toList.drop startIdx).take (endIdx + 1 - startIdx))
  | _, _ => text.trim

/-- Embedding of `OpenAIProvider.generate_structured_output` (openai_provider.py lines
87-164): try strict `json_schema` mode; on any exception fall back once to
`json_object` mode with the schema embedded in the system prompt and apply
the brace scan.  `strictOutcome` is the strict call's outcome (`.error`
embeds the raised exception), `fallbackText` the fallback call's content. -/
def openaiGenerateStructuredOutput (strictOutcome : Except String String)
    (fallbackText : String) : List SOAttempt × String :=
  match strictOutcome with
  | .ok content => ([.strict], content)
  | .error _ => ([.strict, .schemaPrompt], extractJsonSubstring fallbackText)

/-- Embedding of `AnthropicProvider.generate_structured_output` (anthropic_provider.py
lines 137-179): a single unconstrained call with the schema embedded in the
system prompt; the first text block goes through the brace scan, no text
block at all returns the empty dict (`none` here). -/
def anthropicGenerateStructuredOutput (textBlocks : List String) :
    List SOAttempt × Option String :=
  ([.schemaPrompt], textBlocks.head?.map extractJsonSubstring)

/-- Embedding of `GoogleProvider.generate_structured_output` (google_provider.py lines
96-123): a single strict call (`response_schema` in the generation config);
its outcome is passed straight to `json.loads` — there is no fallback and an
exception propagates. -/
def googleGenerateStructuredOutput (strictOutcome : Except String String) :
    List SOAttempt × Except String String :=
  ([.strict], strictOutcome)

/-! Platform rate limiter (`app/tools/platforms/base_platform_tool.py`)

`_check_rate_limit` reads the per-integration fixed-window counter from
Redis, raises when the self-imposed quota (1500 per minute) is reached and
increments it otherwise — but the whole body sits inside
`try: ... except Exception as e: logger.warning(...)`, the clause meant to
tolerate Redis outages.  The embedding keeps both layers explicit. -/

/-- The body of `_check_rate_limit` (lines 141-163): raise on a full window,
otherwise increment the counter. -/
def checkRateLimitBody (currentCount : Nat) : Except String Nat :=
  if 1500 ≤ currentCount then
    .error "Rate limit exceeded. Please wait before making more requests."
  else .ok (currentCount + 1)

/-- Embedding of `BasePlatformTool._check_rate_limit` (lines 133-166) as observed by its
caller: the new counter value and the exception that propagates, if any.
The blanket `except Exception` (lines 164-166) catches the quota exception
too, so the second component is always `none`. -/
def checkRateLimit (currentCount : Nat) : Nat × Option String :=
  match checkRateLimitBody currentCount with
  | .ok n => (n, none)
  | .error _ => (currentCount, none)

/-- Whether `_make_authenticated_request` (lines 168-206) proceeds past the
rate-limit check and issues the HTTP request: it does whenever
`_check_rate_limit` returns without raising. -/
def platformRequestIssued (currentCount : Nat) : Bool :=
  (checkRateLimit currentCount).2.isNone

/-! Agentic loop (`app/services/execution_service.py`, lines 203-462)

The loop is embedded against two oracles: a `Provider` mapping the current
working message list to the canonical event stream of one model turn
(`stream_with_tools`), and a tool table mapping registered names to tool
behaviors.  A tool behavior may return a result dict or raise.  Python
attachments enrichment (lines 140-201) corresponds to the `attachments=None`
path and is not modelled; `message_id` payloads (fresh UUIDs) and log calls
are dropped. -/

/-- Content block of an Anthropic-shaped message (text, `tool_use`, or
`tool_result` keyed by `tool_use_id`). -/
inductive Block where
  | textBlock (text : String)
  | toolUseBlock (id name : String) (input : Json)
  | toolResultBlock (toolUseId : String) (content : String)

/-- Entry of an OpenAI-shaped `tool_calls` array; the `json.dumps` of the
arguments is kept as the structured value. -/
structure OAIToolCall where
  id : String
  name : String
  arguments : Json

/-- Working-history message, covering the shapes the loop appends: plain
`{role, content}` rows, Anthropic block messages (lines 330-384), and
OpenAI/Google tool-call and tool-result messages (lines 386-441). -/
inductive Msg where
  | plain (role : String) (content : String)
  | assistantBlocks (content : List Block)
  | userBlocks (content : List Block)
  | assistantToolCalls (content : Option String) (toolCalls : List OAIToolCall)
  | toolResult (toolCallId : String) (content : String)

/-- Canonical streamed event produced by a provider adapter
(`StreamEvent` in `llm/base_provider.py`). -/
inductive StreamEvent where
  | contentDelta (delta : String)
  | toolUseStart (toolUseId toolName : String) (toolInput : Json)

/-- Lifecycle event yielded to the caller (`ExecutionEvent`,
execution_service.py lines 18-27; payloads reduced to the claim-relevant
fields). -/
inductive ExecEvent where
  | agentLoaded
  | conversationStarted
  | contentDelta (delta : String)
  | toolUseStart (toolName : String) (toolInput : Json)
  | toolUseComplete (toolName : String) (result : ExecResult)
  | messageComplete
  | errorEvent (error : String)

/-- Behavior of one registered tool on one input: produce a result dict or
raise an exception. -/
inductive ToolOutcome where
  | ok (r : ExecResult)
  | raise (msg : String)

/-- Behavior of a registered tool. -/
def ToolImpl : Type := Json → ToolOutcome

/-- The per-execution view of the registry used by `_execute_tool`. -/
def ToolTable : Type := List (String × ToolImpl)

/-- The provider oracle: the canonical event stream `stream_with_tools`
yields for a given working message list. -/
def Provider : Type := List Msg → List StreamEvent

/-- Embedding of `AgentExecutionService._execute_tool` (lines 560-571): an
unregistered name and a raising tool both become `{success: false, error}`
results; nothing propagates. -/
def executeTool (tools : ToolTable) (toolName : String) (toolInput : Json) :
    ExecResult :=
  match assocLookup tools toolName with
  | none => { success := false, error := some ("Tool " ++ toolName ++ " not found") }
  | some impl =>
      match impl toolInput with
      | .ok r => r
      | .raise e => { success := false, error := some e }

/-- One executed tool call of the current turn (`tool_uses` entries,
lines 274-279). -/
structure ToolUse where
  id : String
  name : String
  input : Json
  result : ExecResult

/-- One audit-trail entry (`all_tool_calls` entries, lines 281-285). -/
structure ToolCallRec where
  toolName : String
  input : Json
  output : ExecResult

/-- Mutable loop state threaded across turns: the working message list,
the per-tool consecutive-failure dict, the global consecutive-failure
counter, the audit trail, and the created-entities dict (lines 134-205). -/
structure LoopState where
  conversationMessages : List Msg
  toolFailureCounts : List (String × Nat)
  consecutiveFailures : Nat
  allToolCalls : List ToolCallRec
  createdEntities : List (String × Json)

/-- Id-shaped keys scanned in successful tool results (lines 257-258). -/
def commonIdKeys : List String :=
  ["id", "chart_id", "item_id", "integration_id", "user_id", "product_id",
   "publication_id", "order_id", "category_id", "grid_id", "size_grid_id"]

/-- Created-entity tracking on a successful tool call (lines 254-262): for
each common id key present and truthy in the result's `result` dict, record
it. -/
def trackCreatedEntities (createdEntities : List (String × Json))
    (result : ExecResult) : List (String × Json) :=
  let resultData :=
    match result.result with
    | some (Json.obj fields) => fields
    | _ => []
  commonIdKeys.foldl
    (fun ce key =>
      match assocLookup resultData key with
      | some v => if jsonTruthy v then updAssoc ce key v else ce
      | none => ce)
    createdEntities

/-- In-turn accumulator while consuming one provider stream (lines 211-291):
the accumulated assistant text, the turn's tool uses, the events yielded so
far, and the updated loop state (message list untouched during a stream). -/
structure TurnAcc where
  assistantContent : String
  toolUses : List ToolUse
  events : List ExecEvent
  st : LoopState

/-- Processing of one canonical stream event (lines 222-291): text deltas
accumulate and stream through; a tool-use event is executed immediately —
failure bumps that tool's consecutive-failure count, success resets it and
tracks created entities — and recorded in `tool_uses` and the audit trail. -/
def processStreamEvent (tools : ToolTable) (acc : TurnAcc) :
    StreamEvent → TurnAcc
  | .contentDelta d =>
      { acc with
        assistantContent := acc.assistantContent ++ d,
        events := acc.events ++ [ExecEvent.contentDelta d] }
  | .toolUseStart toolUseId toolName toolInput =>
      let result := executeTool tools toolName toolInput
      let st := acc.st
      let st :=
        if result.success then
          { st with
            toolFailureCounts := updAssoc st.toolFailureCounts toolName 0,
            consecutiveFailures := 0,
            createdEntities := trackCreatedEntities st.createdEntities result }
        else
          { st with
            toolFailureCounts := updAssoc st.toolFailureCounts toolName
              (((assocLookup st.toolFailureCounts toolName).getD 0) + 1),
            consecutiveFailures := st.consecutiveFailures + 1 }
      let st := { st with
        allToolCalls := st.allToolCalls ++ [⟨toolName, toolInput, result⟩] }
      { assistantContent := acc.assistantContent,
        toolUses := acc.toolUses ++ [⟨toolUseId, toolName, toolInput, result⟩],
        events := acc.events ++
          [ExecEvent.toolUseStart toolName toolInput,
           ExecEvent.toolUseComplete toolName result],
        st := st }

/-- Sequential consumption of a turn's stream, in arrival order. -/
def processStream (tools : ToolTable) (acc : TurnAcc) :
    List StreamEvent → TurnAcc
  | [] => acc
  | e :: rest => processStream tools (processStreamEvent tools acc e) rest

/-- One full model turn: consume the stream for the current messages starting
from an empty in-turn accumulator. -/
def processTurn (tools : ToolTable) (st : LoopState)
    (stream : List StreamEvent) : TurnAcc :=
  processStream tools ⟨"", [], [], st⟩ stream

/-- Python `max(tool_failure_counts.values()) if tool_failure_counts else 0`
(line 315). -/
def maxFailureCount (counts : List (String × Nat)) : Nat :=
  counts.foldl (fun m kv => max m kv.2) 0

/-- Python `[k for k, v in tool_failure_counts.items() if v >= 6][0]`
(line 317): the first tool, in dict insertion order, at or past the
threshold. -/
def firstFailingTool (counts : List (String × Nat)) : String :=
  match counts.filter (fun kv => 6 ≤ kv.2) with
  | [] => ""
  | kv :: _ => kv.1

/-- Final message on the consecutive-failure abort (line 319). -/
def toolFailureFinalMsg (toolName : String) : String :=
  "The " ++ toolName ++ " operation has failed 6 times in a row. " ++
    "Let me know if you\x27d like me to try a different approach " ++
    "or if you can provide additional information."

/-- Final message on the tool-call cap abort (line 325). -/
def iterationLimitFinalMsg : String :=
  "I\x27ve reached the limit of 15 tool calls for this turn. " ++
    "I\x27ve made progress, but may need to continue in the next message. " ++
    "Let me know if you\x27d like me to continue or if you need " ++
    "clarification on what I\x27ve done so far."

/-- Rendering of a tool result dict back to JSON, for `str(tool_result)`. -/
def toolResultToJson (r : ExecResult) : Json :=
  Json.obj ([("success", Json.bool r.success)]
    ++ (match r.error with | some e => [("error", Json.str e)] | none => [])
    ++ (match r.result with | some v => [("result", v)] | none => [])
    ++ (match r.data with | some v => [("data", v)] | none => []))

/-- Python `result_str` before annotations (lines 353-356 / 414-418): a
failed result renders its `error` (falling back to the whole dict), a
successful one its `result` entry (falling back to the whole dict). -/
def baseResultStr (r : ExecResult) : String :=
  if r.success then pyStr (r.result.getD (toolResultToJson r))
  else r.error.getD (pyStr (toolResultToJson r))

/-- Last `n` elements of a list (Python `l[-n:]`). -/
def lastN {α : Type} (l : List α) (n : Nat) : List α :=
  l.drop (l.length - n)

/-- Context summary annotation (lines 359-364): names of the successes among
the last five audit-trail entries. -/
def contextSummary (allToolCalls : List ToolCallRec) : String :=
  let recentSuccesses := (lastN allToolCalls 5).filter (fun tc => tc.output.success)
  if recentSuccesses.isEmpty then ""
  else "\n[Recent successful operations: " ++
    String.intercalate ", " (recentSuccesses.map (fun tc => tc.toolName)) ++ "]"

/-- Created-entities annotation (lines 367-369). -/
def entitiesInfo (createdEntities : List (String × Json)) : String :=
  if createdEntities.isEmpty then ""
  else "\n[Created entities available for use: " ++
    String.intercalate ", "
      (createdEntities.map (fun kv => kv.1 ++ "=" ++ pyStr kv.2)) ++ "]"

/-- Progress annotation appended to every tool-result entry (line 372):
`max_iterations` is the literal 15. -/
def progressInfo (totalToolCalls consecutiveFailures : Nat)
    (allToolCalls : List ToolCallRec)
    (createdEntities : List (String × Json)) : String :=
  "\n\n[Progress: " ++ toString totalToolCalls ++ "/15 tool calls made, " ++
    toString consecutiveFailures ++ " consecutive failures]" ++
    contextSummary allToolCalls ++ entitiesInfo createdEntities

/-- The full tool-result text appended to history for one tool call
(lines 353-373). -/
def fullResultStr (r : ExecResult) (totalToolCalls consecutiveFailures : Nat)
    (allToolCalls : List ToolCallRec)
    (createdEntities : List (String × Json)) : String :=
  baseResultStr r ++
    progressInfo totalToolCalls consecutiveFailures allToolCalls createdEntities

/-- Which message-shape branch the loop uses when appending tool results:
`anthropic` (lines 330-384) or the shared OpenAI/Google shape
(lines 386-441). -/
inductive ProviderType where
  | anthropic
  | openaiLike

/-- Appending of this turn's assistant message and tool results to the
working history, in the provider-specific shape (lines 329-441). -/
def appendTurnMessages (ptype : ProviderType) (msgs : List Msg)
    (assistantContent : String) (toolUses : List ToolUse)
    (totalToolCalls consecutiveFailures : Nat)
    (allToolCalls : List ToolCallRec)
    (createdEntities : List (String × Json)) : List Msg :=
  match ptype with
  | .anthropic =>
      let assistantContentBlocks :=
        (if assistantContent ≠ "" then [Block.textBlock assistantContent] else []) ++
          toolUses.map (fun tu => Block.toolUseBlock tu.id tu.name tu.input)
      let toolResultsContent := toolUses.map (fun tu =>
        Block.toolResultBlock tu.id
          (fullResultStr tu.result totalToolCalls consecutiveFailures
            allToolCalls createdEntities))
      msgs ++ [Msg.assistantBlocks assistantContentBlocks,
               Msg.userBlocks toolResultsContent]
  | .openaiLike =>
      let toolCallsArray := toolUses.map (fun tu =>
        OAIToolCall.mk tu.id tu.name tu.input)
      let contentOpt := if assistantContent ≠ "" then some assistantContent else none
      let toolResultMsgs := toolUses.map (fun tu =>
        Msg.toolResult tu.id
          (fullResultStr tu.result totalToolCalls consecutiveFailures
            allToolCalls createdEntities))
      msgs ++ [Msg.assistantToolCalls contentOpt toolCallsArray] ++ toolResultMsgs

/-- Record of one iteration of the agentic loop: the message list the model
turn was requested with, the turn's outcome, the events yielded during the
iteration, and the message list passed to the next turn (`none` when the
loop stopped after this turn). -/
structure TurnRec where
  startMessages : List Msg
  assistantContent : String
  toolUses : List ToolUse
  events : List ExecEvent
  nextMessages : Option (List Msg)

/-- The outcome of streaming and processing one model turn from the current
state (lines 211-291). -/
def turnAccOf (provider : Provider) (tools : ToolTable) (st : LoopState) : TurnAcc :=
  processTurn tools st (provider st.conversationMessages)

/-- Python `total_tool_calls = len(all_tool_calls) + len(tool_uses)`
(line 299); note `all_tool_calls` already contains this turn's calls, so the
current turn is counted twice. -/
def turnTotalToolCalls (acc : TurnAcc) : Nat :=
  acc.st.allToolCalls.length + acc.toolUses.length

/-- The turn's events plus the mid-loop `message_complete` yielded when the
turn produced assistant text (lines 307-309). -/
def turnEventsWithComplete (acc : TurnAcc) : List ExecEvent :=
  acc.events ++
    (if acc.assistantContent ≠ "" then [ExecEvent.messageComplete] else [])

/-- The working history extended with this turn's assistant message and tool
results (lines 329-441). -/
def nextMessagesOf (ptype : ProviderType) (st : LoopState) (acc : TurnAcc) :
    List Msg :=
  appendTurnMessages ptype st.conversationMessages acc.assistantContent
    acc.toolUses (turnTotalToolCalls acc) acc.st.consecutiveFailures
    acc.st.allToolCalls acc.st.createdEntities

/-- The agentic `while` loop (lines 207-443), by remaining-iteration fuel
(`max_iterations = 15`, line 133).  Per iteration: run one turn; a turn with
no tool calls ends the loop with the accumulated text as final answer;
otherwise `message_complete` is yielded when the turn had text, then the
stop conditions run — any tool at 6 consecutive failures aborts naming the
first such tool, then `len(all_tool_calls) + len(tool_uses)` (the audit
trail already contains this turn's calls) at 15 or more aborts noting
partial progress — and otherwise the turn's messages are appended and the
loop continues.  Returns the per-iteration records, the final response
content, and the final state. -/
def runLoop (provider : Provider) (tools : ToolTable) (ptype : ProviderType) :
    Nat → LoopState → List TurnRec × String × LoopState
  | 0, st => ([], "", st)
  | fuel + 1, st =>
      let acc := turnAccOf provider tools st
      if acc.toolUses.length = 0 then
        ([⟨st.conversationMessages, acc.assistantContent, acc.toolUses,
           acc.events, none⟩],
         acc.assistantContent, acc.st)
      else
        if 6 ≤ maxFailureCount acc.st.toolFailureCounts then
          ([⟨st.conversationMessages, acc.assistantContent, acc.toolUses,
             turnEventsWithComplete acc ++
               [ExecEvent.contentDelta
                 (toolFailureFinalMsg (firstFailingTool acc.st.toolFailureCounts))],
             none⟩],
           toolFailureFinalMsg (firstFailingTool acc.st.toolFailureCounts), acc.st)
        else if 15 ≤ turnTotalToolCalls acc then
          ([⟨st.conversationMessages, acc.assistantContent, acc.toolUses,
             turnEventsWithComplete acc ++
               [ExecEvent.contentDelta iterationLimitFinalMsg],
             none⟩],
           iterationLimitFinalMsg, acc.st)
        else
          let rest := runLoop provider tools ptype fuel
            { acc.st with conversationMessages := nextMessagesOf ptype st acc }
          (⟨st.conversationMessages, acc.assistantContent, acc.toolUses,
            turnEventsWithComplete acc, some (nextMessagesOf ptype st acc)⟩ :: rest.1,
           rest.2.1, rest.2.2)

/-- Concatenation of the events yielded across iterations. -/
def loopEvents (turns : List TurnRec) : List ExecEvent :=
  turns.foldr (fun t acc => t.events ++ acc) []

/-- Python `provider_type.capitalize()` as used in the missing-key error
(line 111); the OpenAI/Google branch is represented by one display name,
since the name only parametrizes message text. -/
def providerDisplayName : ProviderType → String
  | .anthropic => "Anthropic"
  | .openaiLike => "Openai"

/-- The terminal error yielded when no API key is configured for the
provider (lines 110-117). -/
def apiKeyMissingMsg (ptype : ProviderType) : String :=
  "No " ++ providerDisplayName ptype ++
    " API key configured. Please add your API key in Settings " ++
    "to enable AI responses."

/-- Embedding of `execute_conversation` (lines 44-484) around the loop: fail
fast with a single terminal `error` event when the agent is absent (lines
67-70) or no API key is configured for the provider (lines 110-117);
otherwise seed the working history with the stored history plus the new user
message, run the loop with fuel 15, and yield the final `message_complete`
(line 462).  Returns the event trace and the final response content. -/
def executeConversation (agentFound : Bool) (apiKey : Option String)
    (provider : Provider) (tools : ToolTable) (ptype : ProviderType)
    (history : List Msg) (userMessage : String) : List ExecEvent × String :=
  if agentFound then
    match apiKey with
    | none =>
        ([ExecEvent.agentLoaded, ExecEvent.conversationStarted,
          ExecEvent.errorEvent (apiKeyMissingMsg ptype)], "")
    | some _ =>
        let initialMessages := history ++ [Msg.plain "user" userMessage]
        let st0 : LoopState := ⟨initialMessages, [], 0, [], []⟩
        let r := runLoop provider tools ptype 15 st0
        ([ExecEvent.agentLoaded, ExecEvent.conversationStarted] ++
          loopEvents r.1 ++ [ExecEvent.messageComplete], r.2.1)
  else ([ExecEvent.errorEvent "Agent not found"], "")

/-! Observations over event traces and histories, used to state the claims. -/

/-- Number of executed tool calls visible in a trace: each execution yields
exactly one `tool_use_complete`. -/
def countToolCompletes (evs : List ExecEvent) : Nat :=
  evs.countP (fun e => match e with
    | ExecEvent.toolUseComplete _ _ => true
    | _ => false)

/-- Number of terminal `error` events in a trace. -/
def countErrorEvents (evs : List ExecEvent) : Nat :=
  evs.countP (fun e => match e with
    | ExecEvent.errorEvent _ => true
    | _ => false)

/-- Results of the completed calls of one named tool, in trace order. -/
def toolCompleteResultsFor (evs : List ExecEvent) (toolName : String) :
    List ExecResult :=
  evs.filterMap (fun e => match e with
    | ExecEvent.toolUseComplete n r => if n = toolName then some r else none
    | _ => none)

/-- The `(name, input)` pairs of the `tool_use_start` events of a trace, in
order. -/
def toolStartPairs (evs : List ExecEvent) : List (String × Json) :=
  evs.filterMap (fun e => match e with
    | ExecEvent.toolUseStart n i => some (n, i)
    | _ => none)

/-- The `(name, result)` pairs of the `tool_use_complete` events of a trace,
in order. -/
def toolCompletePairs (evs : List ExecEvent) : List (String × ExecResult) :=
  evs.filterMap (fun e => match e with
    | ExecEvent.toolUseComplete n r => some (n, r)
    | _ => none)

/-- Call ids of the tool-result entries carried by one history message
(Anthropic `tool_result` blocks, or an OpenAI/Google `role: tool` row). -/
def resultIdsOfMsg : Msg → List String
  | Msg.userBlocks blocks =>
      blocks.filterMap (fun b => match b with
        | Block.toolResultBlock toolUseId _ => some toolUseId
        | _ => none)
  | Msg.toolResult toolCallId _ => [toolCallId]
  | _ => []

/-- Call ids of all tool-result entries in a message list, in order. -/
def resultIds (msgs : List Msg) : List String :=
  msgs.foldr (fun m acc => resultIdsOfMsg m ++ acc) []

/-- The tool uses a provider stream requests, in discovery order, paired with
the result executing them against the given tool table produces. -/
def streamToolUses (tools : ToolTable) (stream : List StreamEvent) :
    List ToolUse :=
  stream.filterMap (fun e => match e with
    | StreamEvent.toolUseStart id name input =>
        some ⟨id, name, input, executeTool tools name input⟩
    | _ => none)

/-! Concrete scenarios used to exhibit counterexamples and witnesses.  Each
`Demo` pair is an oracle for the provider stream plus a tool table. -/

/-- A provider whose first (and only reached) turn requests sixteen calls of
the tool `t`. -/
def demoWideProvider : Provider := fun _ =>
  (List.range 16).map (fun i =>
    StreamEvent.toolUseStart (toString i) "t" (Json.obj []))

/-- One always-succeeding registered tool named `t`. -/
def demoOkTools : ToolTable :=
  [("t", fun _ => ToolOutcome.ok { success := true, result := some (Json.obj []) })]

/-- A provider whose first turn requests seven calls of the tool `a` (inputs
`0`..`6`) and whose second turn answers with plain text. -/
def demoStreakProvider : Provider := fun msgs =>
  if msgs.length = 1 then
    (List.range 7).map (fun i =>
      StreamEvent.toolUseStart (toString i) "a" (Json.num i))
  else [StreamEvent.contentDelta "done"]

/-- A registered tool `a` that fails on inputs `0`..`5` and succeeds from
`6` on: six consecutive failures followed by a success. -/
def demoStreakTools : ToolTable :=
  [("a", fun input => match input with
    | Json.num i =>
        if i < 6 then ToolOutcome.ok { success := false, error := some "boom" }
        else ToolOutcome.ok { success := true, result := some (Json.obj []) }
    | _ => ToolOutcome.raise "bad input")]

/-- A provider whose first turn requests one call of the tool `s` and whose
second turn answers with plain text. -/
def demoOneCallProvider : Provider := fun msgs =>
  if msgs.length = 1 then
    [StreamEvent.toolUseStart "call0" "s" (Json.str "q")]
  else [StreamEvent.contentDelta "answer"]

/-- One registered tool named `s` that echoes a result dict. -/
def demoEchoTools : ToolTable :=
  [("s", fun input => ToolOutcome.ok { success := true, result := some input })]

/-- A registered tool that always raises. -/
def demoRaisingTools : ToolTable :=
  [("s", fun _ => ToolOutcome.raise "kaboom")]

/-- A provider whose first turn requests six calls of the tool `b`. -/
def demoFailProvider : Provider := fun _ =>
  (List.range 6).map (fun i =>
    StreamEvent.toolUseStart (toString i) "b" (Json.obj []))

/-- A registered tool named `b` that always fails. -/
def demoFailTools : ToolTable :=
  [("b", fun _ => ToolOutcome.ok { success := false, error := some "nope" })]

/-- The loop state `execute_conversation` starts from for an empty stored
history and the user message `go`. -/
def demoInitState : LoopState :=
  ⟨[Msg.plain "user" "go"], [], 0, [], []⟩

/-- First element of a turn list (with a vacuous default). -/
def firstTurn (turns : List TurnRec) : TurnRec :=
  turns.headD ⟨[], "", [], [], none⟩

/-! General lemmas about the dict embedding. -/

theorem assocLookup_updAssoc_self {β : Type} (l : List (String × β)) (k : String) (v : β) :
    assocLookup (updAssoc l k v) k = some v := by
  induction l with
  | nil => simp [updAssoc, assocLookup]
  | cons kv rest ih =>
      obtain ⟨k', v'⟩ := kv
      by_cases h : k' = k
      · simp [updAssoc, h, assocLookup]
      · simp [updAssoc, h, assocLookup, ih]

theorem assocLookup_updAssoc_of_ne {β : Type} (l : List (String × β)) {k t : String}
    (v : β) (h : k ≠ t) :
    assocLookup (updAssoc l k v) t = assocLookup l t := by
  induction l with
  | nil => simp [updAssoc, assocLookup, h]
  | cons kv rest ih =>
      obtain ⟨k', v'⟩ := kv
      by_cases h1 : k' = k
      · subst h1
        simp [updAssoc, assocLookup, h]
      · simp [updAssoc, h1, assocLookup, ih]

/-! Lemmas about field extraction. -/

theorem assocLookup_extractStep_of_ne (data : Json) (acc : List (String × Json))
    (kv : String × String) (f : String) (h : kv.1 ≠ f) :
    assocLookup (extractStep data acc kv) f = assocLookup acc f := by
  unfold extractStep
  split
  · exact assocLookup_updAssoc_of_ne _ _ h
  · split
    · exact assocLookup_updAssoc_of_ne _ _ h
    · exact assocLookup_updAssoc_of_ne _ _ h
    · exact assocLookup_updAssoc_of_ne _ _ h

theorem assocLookup_foldl_extractStep_of_not_mem (data : Json) :
    ∀ (mapping : List (String × String)) (acc : List (String × Json)) (f : String),
      f ∉ mapping.map Prod.fst →
      assocLookup (List.foldl (extractStep data) acc mapping) f = assocLookup acc f := by
  intro mapping
  induction mapping with
  | nil => intro acc f _; rfl
  | cons kv rest ih =>
      intro acc f hm
      rw [List.map_cons, List.mem_cons] at hm
      push_neg at hm
      rw [List.foldl_cons, ih _ _ hm.2, assocLookup_extractStep_of_ne _ _ _ _ (fun he => hm.1 he.symm)]

theorem extractStep_of_noMatch (data : Json) (acc : List (String × Json))
    (f e : String) (h : jsonpathNoMatch e data = true) :
    extractStep data acc (f, e) = updAssoc acc f Json.null := by
  unfold jsonpathNoMatch at h
  unfold extractStep
  split
  · rfl
  · rename_i path hseg
    simp only [hseg] at h
    split
    · rfl
    · rename_i v hfind
      rw [hfind] at h
      simp at h
    · rename_i ws hne hone
      have hnil : jsonpathFind path data = [] := by
        cases hfind : jsonpathFind path data with
        | nil => rfl
        | cons a as => rw [hfind] at h; simp at h
      exact absurd hnil hne

/-! Lemmas about in-turn stream processing. -/

theorem processStreamEvent_messages (tools : ToolTable) (acc : TurnAcc) (e : StreamEvent) :
    (processStreamEvent tools acc e).st.conversationMessages = acc.st.conversationMessages := by
  cases e with
  | contentDelta d => rfl
  | toolUseStart id name input =>
      simp only [processStreamEvent]
      by_cases h : (executeTool tools name input).success <;> simp [h]

theorem processStream_messages (tools : ToolTable) :
    ∀ (evs : List StreamEvent) (acc : TurnAcc),
      (processStream tools acc evs).st.conversationMessages = acc.st.conversationMessages := by
  intro evs
  induction evs with
  | nil => intro acc; rfl
  | cons e rest ih =>
      intro acc
      simp only [processStream]
      rw [ih, processStreamEvent_messages]

theorem processTurn_messages (tools : ToolTable) (st : LoopState) (stream : List StreamEvent) :
    (processTurn tools st stream).st.conversationMessages = st.conversationMessages :=
  processStream_messages tools stream _

theorem processStream_toolUses (tools : ToolTable) :
    ∀ (evs : List StreamEvent) (acc : TurnAcc),
      (processStream tools acc evs).toolUses = acc.toolUses ++ streamToolUses tools evs := by
  intro evs
  induction evs with
  | nil => intro acc; simp [processStream, streamToolUses]
  | cons e rest ih =>
      intro acc
      simp only [processStream]
      rw [ih]
      cases e with
      | contentDelta d =>
          simp [processStreamEvent, streamToolUses, List.filterMap_cons]
      | toolUseStart id name input =>
          simp [processStreamEvent, streamToolUses, List.filterMap_cons, List.append_assoc]

theorem processTurn_toolUses (tools : ToolTable) (st : LoopState) (stream : List StreamEvent) :
    (processTurn tools st stream).toolUses = streamToolUses tools stream := by
  unfold processTurn
  rw [processStream_toolUses]
  rfl

theorem toolStartPairs_append (a b : List ExecEvent) :
    toolStartPairs (a ++ b) = toolStartPairs a ++ toolStartPairs b :=
  List.filterMap_append _ _ _

theorem toolCompletePairs_append (a b : List ExecEvent) :
    toolCompletePairs (a ++ b) = toolCompletePairs a ++ toolCompletePairs b :=
  List.filterMap_append _ _ _

theorem toolStartPairs_processStream (tools : ToolTable) :
    ∀ (evs : List StreamEvent) (acc : TurnAcc),
      toolStartPairs (processStream tools acc evs).events =
        toolStartPairs acc.events ++
          (streamToolUses tools evs).map (fun tu => (tu.name, tu.input)) := by
  intro evs
  induction evs with
  | nil => intro acc; simp [processStream, streamToolUses]
  | cons e rest ih =>
      intro acc
      simp only [processStream]
      rw [ih]
      cases e with
      | contentDelta d =>
          simp [processStreamEvent, streamToolUses, List.filterMap_cons,
            toolStartPairs_append, toolStartPairs]
      | toolUseStart id name input =>
          simp [processStreamEvent, streamToolUses, List.filterMap_cons,
            toolStartPairs_append, toolStartPairs, List.append_assoc]

theorem toolCompletePairs_processStream (tools : ToolTable) :
    ∀ (evs : List StreamEvent) (acc : TurnAcc),
      toolCompletePairs (processStream tools acc evs).events =
        toolCompletePairs acc.events ++
          (streamToolUses tools evs).map (fun tu => (tu.name, tu.result)) := by
  intro evs
  induction evs with
  | nil => intro acc; simp [processStream, streamToolUses]
  | cons e rest ih =>
      intro acc
      simp only [processStream]
      rw [ih]
      cases e with
      | contentDelta d =>
          simp [processStreamEvent, streamToolUses, List.filterMap_cons,
            toolCompletePairs_append, toolCompletePairs]
      | toolUseStart id name input =>
          simp [processStreamEvent, streamToolUses, List.filterMap_cons,
            toolCompletePairs_append, toolCompletePairs, List.append_assoc]

theorem countErrorEvents_append (a b : List ExecEvent) :
    countErrorEvents (a ++ b) = countErrorEvents a + countErrorEvents b :=
  List.countP_append _ _ _

theorem countErrorEvents_processStream (tools : ToolTable) :
    ∀ (evs : List StreamEvent) (acc : TurnAcc),
      countErrorEvents (processStream tools acc evs).events =
        countErrorEvents acc.events := by
  intro evs
  induction evs with
  | nil => intro acc; rfl
  | cons e rest ih =>
      intro acc
      simp only [processStream]
      rw [ih]
      cases e with
      | contentDelta d =>
          simp [processStreamEvent, countErrorEvents_append, countErrorEvents]
      | toolUseStart id name input =>
          simp [processStreamEvent, countErrorEvents_append, countErrorEvents]

theorem countErrorEvents_processTurn (tools : ToolTable) (st : LoopState)
    (stream : List StreamEvent) :
    countErrorEvents (processTurn tools st stream).events = 0 := by
  unfold processTurn
  rw [countErrorEvents_processStream]
  rfl

/-! Unfolding lemmas for one iteration of the loop, one per control-flow
branch. -/

theorem runLoop_succ_no_tools (provider : Provider) (tools : ToolTable)
    (ptype : ProviderType) (fuel : Nat) (st : LoopState)
    (h : (turnAccOf provider tools st).toolUses.length = 0) :
    runLoop provider tools ptype (fuel + 1) st =
      ([⟨st.conversationMessages, (turnAccOf provider tools st).assistantContent,
         (turnAccOf provider tools st).toolUses,
         (turnAccOf provider tools st).events, none⟩],
       (turnAccOf provider tools st).assistantContent,
       (turnAccOf provider tools st).st) := by
  simp only [runLoop]
  rw [if_pos h]

theorem runLoop_succ_fail_stop (provider : Provider) (tools : ToolTable)
    (ptype : ProviderType) (fuel : Nat) (st : LoopState)
    (h0 : (turnAccOf provider tools st).toolUses.length ≠ 0)
    (h6 : 6 ≤ maxFailureCount (turnAccOf provider tools st).st.toolFailureCounts) :
    runLoop provider tools ptype (fuel + 1) st =
      ([⟨st.conversationMessages, (turnAccOf provider tools st).assistantContent,
         (turnAccOf provider tools st).toolUses,
         turnEventsWithComplete (turnAccOf provider tools st) ++
           [ExecEvent.contentDelta
             (toolFailureFinalMsg
               (firstFailingTool (turnAccOf provider tools st).st.toolFailureCounts))],
         none⟩],
       toolFailureFinalMsg
         (firstFailingTool (turnAccOf provider tools st).st.toolFailureCounts),
       (turnAccOf provider tools st).st) := by
  simp only [runLoop]
  rw [if_neg h0, if_pos h6]

theorem runLoop_succ_cap_stop (provider : Provider) (tools : ToolTable)
    (ptype : ProviderType) (fuel : Nat) (st : LoopState)
    (h0 : (turnAccOf provider tools st).toolUses.length ≠ 0)
    (h6 : ¬ 6 ≤ maxFailureCount (turnAccOf provider tools st).st.toolFailureCounts)
    (h15 : 15 ≤ turnTotalToolCalls (turnAccOf provider tools st)) :
    runLoop provider tools ptype (fuel + 1) st =
      ([⟨st.conversationMessages, (turnAccOf provider tools st).assistantContent,
         (turnAccOf provider tools st).toolUses,
         turnEventsWithComplete (turnAccOf provider tools st) ++
           [ExecEvent.contentDelta iterationLimitFinalMsg],
         none⟩],
       iterationLimitFinalMsg, (turnAccOf provider tools st).st) := by
  simp only [runLoop]
  rw [if_neg h0, if_neg h6, if_pos h15]

theorem runLoop_succ_continue (provider : Provider) (tools : ToolTable)
    (ptype : ProviderType) (fuel : Nat) (st : LoopState)
    (h0 : (turnAccOf provider tools st).toolUses.length ≠ 0)
    (h6 : ¬ 6 ≤ maxFailureCount (turnAccOf provider tools st).st.toolFailureCounts)
    (h15 : ¬ 15 ≤ turnTotalToolCalls (turnAccOf provider tools st)) :
    runLoop provider tools ptype (fuel + 1) st =
      (⟨st.conversationMessages, (turnAccOf provider tools st).assistantContent,
        (turnAccOf provider tools st).toolUses,
        turnEventsWithComplete (turnAccOf provider tools st),
        some (nextMessagesOf ptype st (turnAccOf provider tools st))⟩ ::
         (runLoop provider tools ptype fuel
           { (turnAccOf provider tools st).st with
             conversationMessages :=
               nextMessagesOf ptype st (turnAccOf provider tools st) }).1,
       (runLoop provider tools ptype fuel
         { (turnAccOf provider tools st).st with
           conversationMessages :=
             nextMessagesOf ptype st (turnAccOf provider tools st) }).2.1,
       (runLoop provider tools ptype fuel
         { (turnAccOf provider tools st).st with
           conversationMessages :=
             nextMessagesOf ptype st (turnAccOf provider tools st) }).2.2) := by
  simp only [runLoop]
  rw [if_neg h0, if_neg h6, if_neg h15]

/-! Structural lemmas about the loop. -/

theorem loopEvents_nil : loopEvents [] = [] := rfl

theorem loopEvents_cons (t : TurnRec) (rest : List TurnRec) :
    loopEvents (t :: rest) = t.events ++ loopEvents rest := rfl

theorem runLoop_turns_length (provider : Provider) (tools : ToolTable)
    (ptype : ProviderType) :
    ∀ (fuel : Nat) (st : LoopState),
      ((runLoop provider tools ptype fuel st).1).length ≤ fuel := by
  intro fuel
  induction fuel with
  | zero => intro st; simp [runLoop]
  | succ fuel ih =>
      intro st
      by_cases h0 : (turnAccOf provider tools st).toolUses.length = 0
      · rw [runLoop_succ_no_tools provider tools ptype fuel st h0]
        simp only [List.length_cons, List.length_nil]
        omega
      · by_cases h6 : 6 ≤ maxFailureCount (turnAccOf provider tools st).st.toolFailureCounts
        · rw [runLoop_succ_fail_stop provider tools ptype fuel st h0 h6]
          simp only [List.length_cons, List.length_nil]
          omega
        · by_cases h15 : 15 ≤ turnTotalToolCalls (turnAccOf provider tools st)
          · rw [runLoop_succ_cap_stop provider tools ptype fuel st h0 h6 h15]
            simp only [List.length_cons, List.length_nil]
            omega
          · rw [runLoop_succ_continue provider tools ptype fuel st h0 h6 h15]
            simp only [List.length_cons]
            exact Nat.succ_le_succ (ih _)

theorem runLoop_head_startMessages (provider : Provider) (tools : ToolTable)
    (ptype : ProviderType) (fuel : Nat) (st : LoopState) (t : TurnRec)
    (rest : List TurnRec)
    (h : (runLoop provider tools ptype fuel st).1 = t :: rest) :
    t.startMessages = st.conversationMessages := by
  cases fuel with
  | zero => simp [runLoop] at h
  | succ fuel =>
      by_cases h0 : (turnAccOf provider tools st).toolUses.length = 0
      · rw [runLoop_succ_no_tools provider tools ptype fuel st h0] at h
        injection h with h1 _
        rw [← h1]
      · by_cases h6 : 6 ≤ maxFailureCount (turnAccOf provider tools st).st.toolFailureCounts
        · rw [runLoop_succ_fail_stop provider tools ptype fuel st h0 h6] at h
          injection h with h1 _
          rw [← h1]
        · by_cases h15 : 15 ≤ turnTotalToolCalls (turnAccOf provider tools st)
          · rw [runLoop_succ_cap_stop provider tools ptype fuel st h0 h6 h15] at h
            injection h with h1 _
            rw [← h1]
          · rw [runLoop_succ_continue provider tools ptype fuel st h0 h6 h15] at h
            injection h with h1 _
            rw [← h1]

theorem countErrorEvents_turnAccOf (provider : Provider) (tools : ToolTable)
    (st : LoopState) :
    countErrorEvents (turnAccOf provider tools st).events = 0 :=
  countErrorEvents_processTurn tools st (provider st.conversationMessages)

theorem countErrorEvents_turnEventsWithComplete (provider : Provider)
    (tools : ToolTable) (st : LoopState) :
    countErrorEvents (turnEventsWithComplete (turnAccOf provider tools st)) = 0 := by
  unfold turnEventsWithComplete
  rw [countErrorEvents_append, countErrorEvents_turnAccOf]
  by_cases hc : (turnAccOf provider tools st).assistantContent ≠ "" <;>
    simp [hc, countErrorEvents]

theorem countErrorEvents_runLoop (provider : Provider) (tools : ToolTable)
    (ptype : ProviderType) :
    ∀ (fuel : Nat) (st : LoopState),
      countErrorEvents (loopEvents (runLoop provider tools ptype fuel st).1) = 0 := by
  intro fuel
  induction fuel with
  | zero => intro st; simp [runLoop, loopEvents, countErrorEvents]
  | succ fuel ih =>
      intro st
      by_cases h0 : (turnAccOf provider tools st).toolUses.length = 0
      · rw [runLoop_succ_no_tools provider tools ptype fuel st h0]
        rw [loopEvents_cons, loopEvents_nil, List.append_nil]
        exact countErrorEvents_turnAccOf provider tools st
      · by_cases h6 : 6 ≤ maxFailureCount (turnAccOf provider tools st).st.toolFailureCounts
        · rw [runLoop_succ_fail_stop provider tools ptype fuel st h0 h6]
          rw [loopEvents_cons, loopEvents_nil, List.append_nil, countErrorEvents_append,
            countErrorEvents_turnEventsWithComplete]
          simp [countErrorEvents]
        · by_cases h15 : 15 ≤ turnTotalToolCalls (turnAccOf provider tools st)
          · rw [runLoop_succ_cap_stop provider tools ptype fuel st h0 h6 h15]
            rw [loopEvents_cons, loopEvents_nil, List.append_nil, countErrorEvents_append,
              countErrorEvents_turnEventsWithComplete]
            simp [countErrorEvents]
          · rw [runLoop_succ_continue provider tools ptype fuel st h0 h6 h15]
            rw [loopEvents_cons, countErrorEvents_append,
              countErrorEvents_turnEventsWithComplete, ih]

/-! Lemmas about the appended tool-result messages. -/

theorem resultIds_nil : resultIds [] = [] := rfl

theorem resultIds_cons (m : Msg) (rest : List Msg) :
    resultIds (m :: rest) = resultIdsOfMsg m ++ resultIds rest := rfl

theorem resultIds_append (a b : List Msg) :
    resultIds (a ++ b) = resultIds a ++ resultIds b := by
  induction a with
  | nil => rfl
  | cons m rest ih =>
      rw [List.cons_append, resultIds_cons, resultIds_cons, ih, List.append_assoc]

theorem filterMap_toolResultBlock_map (g : ToolUse → String) (toolUses : List ToolUse) :
    List.filterMap (fun b => match b with
        | Block.toolResultBlock toolUseId _ => some toolUseId
        | _ => none)
      (toolUses.map (fun tu => Block.toolResultBlock tu.id (g tu)))
    = toolUses.map (fun tu => tu.id) := by
  induction toolUses with
  | nil => rfl
  | cons tu rest ih => simp [List.map_cons, List.filterMap_cons, ih]

theorem resultIds_toolResultMsgs_map (g : ToolUse → String) (toolUses : List ToolUse) :
    resultIds (toolUses.map (fun tu => Msg.toolResult tu.id (g tu)))
      = toolUses.map (fun tu => tu.id) := by
  induction toolUses with
  | nil => rfl
  | cons tu rest ih =>
      rw [List.map_cons, resultIds_cons, ih]
      rfl

theorem resultIds_appendTurnMessages (ptype : ProviderType) (msgs : List Msg)
    (content : String) (toolUses : List ToolUse) (total consec : Nat)
    (allCalls : List ToolCallRec) (created : List (String × Json)) :
    resultIds (appendTurnMessages ptype msgs content toolUses total consec allCalls created)
      = resultIds msgs ++ toolUses.map (fun tu => tu.id) := by
  cases ptype with
  | anthropic =>
      unfold appendTurnMessages
      rw [resultIds_append, resultIds_cons, resultIds_cons, resultIds_nil]
      show resultIds msgs ++ ([] ++ (List.filterMap _ _ ++ [])) = _
      rw [filterMap_toolResultBlock_map
        (fun tu => fullResultStr tu.result total consec allCalls created) toolUses]
      simp
  | openaiLike =>
      unfold appendTurnMessages
      rw [List.append_assoc, resultIds_append, List.singleton_append, resultIds_cons,
        resultIds_toolResultMsgs_map
          (fun tu => fullResultStr tu.result total consec allCalls created) toolUses]
      rfl

theorem appendTurnMessages_suffix (ptype : ProviderType) (msgs : List Msg)
    (content : String) (toolUses : List ToolUse) (total consec : Nat)
    (allCalls : List ToolCallRec) (created : List (String × Json)) :
    ∃ suffix,
      appendTurnMessages ptype msgs content toolUses total consec allCalls created
        = msgs ++ suffix := by
  cases ptype with
  | anthropic => exact ⟨_, rfl⟩
  | openaiLike =>
      unfold appendTurnMessages
      rw [List.append_assoc]
      exact ⟨_, rfl⟩

/-! Lemmas relating one turn's events to the stream that produced them. -/

theorem turnAccOf_toolUses (provider : Provider) (tools : ToolTable) (st : LoopState) :
    (turnAccOf provider tools st).toolUses
      = streamToolUses tools (provider st.conversationMessages) :=
  processTurn_toolUses tools st _

theorem toolStartPairs_turnAccOf (provider : Provider) (tools : ToolTable) (st : LoopState) :
    toolStartPairs (turnAccOf provider tools st).events
      = (streamToolUses tools (provider st.conversationMessages)).map
          (fun tu => (tu.name, tu.input)) := by
  unfold turnAccOf processTurn
  rw [toolStartPairs_processStream]
  simp [toolStartPairs]

theorem toolCompletePairs_turnAccOf (provider : Provider) (tools : ToolTable) (st : LoopState) :
    toolCompletePairs (turnAccOf provider tools st).events
      = (streamToolUses tools (provider st.conversationMessages)).map
          (fun tu => (tu.name, tu.result)) := by
  unfold turnAccOf processTurn
  rw [toolCompletePairs_processStream]
  simp [toolCompletePairs]

theorem toolStartPairs_turnEventsWithComplete (provider : Provider) (tools : ToolTable)
    (st : LoopState) :
    toolStartPairs (turnEventsWithComplete (turnAccOf provider tools st))
      = (streamToolUses tools (provider st.conversationMessages)).map
          (fun tu => (tu.name, tu.input)) := by
  unfold turnEventsWithComplete
  rw [toolStartPairs_append, toolStartPairs_turnAccOf]
  by_cases hc : (turnAccOf provider tools st).assistantContent ≠ "" <;>
    simp [hc, toolStartPairs]

theorem toolCompletePairs_turnEventsWithComplete (provider : Provider) (tools : ToolTable)
    (st : LoopState) :
    toolCompletePairs (turnEventsWithComplete (turnAccOf provider tools st))
      = (streamToolUses tools (provider st.conversationMessages)).map
          (fun tu => (tu.name, tu.result)) := by
  unfold turnEventsWithComplete
  rw [toolCompletePairs_append, toolCompletePairs_turnAccOf]
  by_cases hc : (turnAccOf provider tools st).assistantContent ≠ "" <;>
    simp [hc, toolCompletePairs]

/-- Claim C5 counterexample: with the singleton class state starting fresh,
a first execution's service registers tool `t` (as instance `7`); a second
execution's `AgentExecutionService.__init__` receives the very same registry
state (second conjunct), in which `t` resolves (first conjunct) — tools
registered by one execution are visible to the next. -/
theorem c5_counterexample :
    registryGetTool
      (agentExecutionServiceInit
        (registryRegister
          (agentExecutionServiceInit { instanceCreated := false, tools := [] })
          "t" 7)) "t" = some 7 ∧
    agentExecutionServiceInit
      (registryRegister
        (agentExecutionServiceInit { instanceCreated := false, tools := [] })
        "t" 7)
      = registryRegister
          (agentExecutionServiceInit { instanceCreated := false, tools := [] })
          "t" 7 :=
  ⟨rfl, rfl⟩

/-- Claim C5 (amended): `ToolRegistry` is a process-wide singleton.  After
any `AgentExecutionService.__init__` the singleton exists; constructing a
service again returns the same class state unchanged; registration does not
re-create the singleton; and a tool registered through one service resolves
through a subsequently constructed service. -/
theorem c5_amended :
    (∀ p : RegistryProcessState, (agentExecutionServiceInit p).instanceCreated = true) ∧
    (∀ p : RegistryProcessState,
       agentExecutionServiceInit (agentExecutionServiceInit p) = agentExecutionServiceInit p) ∧
    (∀ (p : RegistryProcessState) (k : String) (v : Nat),
       (registryRegister p k v).instanceCreated = p.instanceCreated) ∧
    (∀ (p : RegistryProcessState) (k : String) (v : Nat),
       registryGetTool
         (agentExecutionServiceInit (registryRegister (agentExecutionServiceInit p) k v)) k
         = some v) := by
  refine ⟨?_, ?_, ?_, ?_⟩
  · intro p
    unfold agentExecutionServiceInit toolRegistryNew
    by_cases h : p.instanceCreated <;> simp [h]
  · intro p
    unfold agentExecutionServiceInit toolRegistryNew
    by_cases h : p.instanceCreated <;> simp [h]
  · intro p k v
    rfl
  · intro p k v
    unfold agentExecutionServiceInit toolRegistryNew registryRegister registryGetTool
    by_cases h : p.instanceCreated <;>
      simp [h, assocLookup_updAssoc_self]

/-- Claim C6 counterexample: the Anthropic adapter's
`generate_structured_output` issues no strict schema-constrained attempt at
all — on a concrete call its attempt sequence is just the schema-in-prompt
generation, which is not the strict kind the claim requires first. -/
theorem c6_counterexample :
    (anthropicGenerateStructuredOutput ["ok"]).1 = [SOAttempt.schemaPrompt] ∧
    SOAttempt.schemaPrompt ≠ SOAttempt.strict :=
  ⟨rfl, by decide⟩

/-- Claim C6 (amended): only the OpenAI adapter attempts strict generation
first and falls back exactly once (to a schema-in-system-prompt generation,
parsing the first-`LBRACE`-to-last-`RBRACE` substring of the response); the
Anthropic adapter always performs the single schema-in-prompt generation
with the same brace scan and no strict attempt, and the Google adapter
always performs the single strict attempt with no fallback.  The brace scan
returns a contiguous substring of the stripped response text. -/
theorem c6_amended :
    (∀ content fallbackText : String,
       openaiGenerateStructuredOutput (Except.ok content) fallbackText =
         ([SOAttempt.strict], content)) ∧
    (∀ e fallbackText : String,
       openaiGenerateStructuredOutput (Except.error e) fallbackText =
         ([SOAttempt.strict, SOAttempt.schemaPrompt], extractJsonSubstring fallbackText)) ∧
    (∀ textBlocks : List String,
       (anthropicGenerateStructuredOutput textBlocks).1 = [SOAttempt.schemaPrompt]) ∧
    (∀ strictOutcome : Except String String,
       googleGenerateStructuredOutput strictOutcome = ([SOAttempt.strict], strictOutcome)) ∧
    (∀ text : String, ∃ u v : List Char,
       text.trim.toList = u ++ (extractJsonSubstring text).toList ++ v) := by
  refine ⟨fun _ _ => rfl, fun _ _ => rfl, fun _ => rfl, fun _ => rfl, ?_⟩
  intro text
  unfold extractJsonSubstring
  split
  · rename_i startIdx endIdx h1 h2
    refine ⟨text.trim.toList.take startIdx,
            (text.trim.toList.drop startIdx).drop (endIdx + 1 - startIdx), ?_⟩
    show text.trim.toList =
      text.trim.toList.take startIdx ++
        (text.trim.toList.drop startIdx).take (endIdx + 1 - startIdx) ++
        (text.trim.toList.drop startIdx).drop (endIdx + 1 - startIdx)
    rw [List.append_assoc, List.take_append_drop, List.take_append_drop]
  · exact ⟨[], [], by simp⟩

/-- Claim C7: extract mode on response `a: (b: 5)` with mapping `x: a.b`
yields `x: 5`; a missing path yields `null`; and in general every mapping
entry whose path expression has no match (or fails to parse) is mapped to
`null` in the output — no exception escapes, since the extraction is total. -/
theorem c7_extract_mode (data : Json) (pre post : List (String × String))
    (f e : String) (hnm : jsonpathNoMatch e data = true)
    (hf : f ∉ post.map Prod.fst) :
    extractFields (Json.obj [("a", Json.obj [("b", Json.num 5)])]) [("x", "a.b")]
      = [("x", Json.num 5)] ∧
    extractFields (Json.obj [("a", Json.obj [("b", Json.num 5)])]) [("y", "a.c")]
      = [("y", Json.null)] ∧
    assocLookup (extractFields data (pre ++ (f, e) :: post)) f = some Json.null := by
  refine ⟨rfl, rfl, ?_⟩
  unfold extractFields
  rw [List.foldl_append, List.foldl_cons]
  rw [assocLookup_foldl_extractStep_of_not_mem _ _ _ _ hf]
  rw [extractStep_of_noMatch _ _ _ _ hnm]
  exact assocLookup_updAssoc_self _ _ _

/-- Claim C7 witness: the missing-path mapping entry `y: a.c` over the
response `a: (b: 5)` is mapped to `null`. -/
theorem c7_extract_mode_witness :
    jsonpathNoMatch "a.c" (Json.obj [("a", Json.obj [("b", Json.num 5)])]) = true ∧
    ("y" : String) ∉ ([] : List (String × String)).map Prod.fst ∧
    assocLookup
      (extractFields (Json.obj [("a", Json.obj [("b", Json.num 5)])])
        ([] ++ ("y", "a.c") :: []))
      "y" = some Json.null :=
  ⟨by decide, by simp,
   (c7_extract_mode (Json.obj [("a", Json.obj [("b", Json.num 5)])]) [] []
      "y" "a.c" (by decide) (by simp)).2.2⟩

/-- Claim C8: whenever some field declared required by the tool's input
schema is missing from the input or has a falsy value, `APITool.execute`
returns a `{success: false, error}` validation result and performs zero
`_make_api_call` invocations — the HTTP request is never issued, and no
exception escapes (the embedding is total and the source wraps the body in
a catch-all that converts exceptions to failure results). -/
theorem c8_required_validation (inputSchema : APIInputSchema) (outputMode : String)
    (outputMapping : List (String × String)) (apiCall : Except String Json)
    (inputData : List (String × Json))
    (h : ∃ field ∈ inputSchema.required, missingOrEmpty inputData field = true) :
    (apiToolExecute inputSchema outputMode outputMapping apiCall inputData).2 = 0 ∧
    (apiToolExecute inputSchema outputMode outputMapping apiCall inputData).1.success
      = false ∧
    (apiToolExecute inputSchema outputMode outputMapping apiCall inputData).1.error
      ≠ none := by
  obtain ⟨field, hmem, hmiss⟩ := h
  have hreq : inputSchema.required.isEmpty = false := by
    cases hr : inputSchema.required with
    | nil => rw [hr] at hmem; exact absurd hmem (List.not_mem_nil _)
    | cons a l => rfl
  have hfil : (inputSchema.required.filter (missingOrEmpty inputData)).isEmpty = false := by
    have hin : field ∈ inputSchema.required.filter (missingOrEmpty inputData) :=
      List.mem_filter.mpr ⟨hmem, hmiss⟩
    cases hf : inputSchema.required.filter (missingOrEmpty inputData) with
    | nil => rw [hf] at hin; exact absurd hin (List.not_mem_nil _)
    | cons a l => rfl
  simp [apiToolExecute, validateRequiredParams, hreq, hfil]

/-- Claim C8 witness: the schema requiring `q`, called with empty input,
yields a validation failure and zero HTTP calls. -/
theorem c8_required_validation_witness :
    (∃ field ∈ (APIInputSchema.mk ["q"] [("q", some "query")]).required,
       missingOrEmpty [] field = true) ∧
    (apiToolExecute (APIInputSchema.mk ["q"] [("q", some "query")]) "full" []
      (Except.ok (Json.obj [])) []).2 = 0 ∧
    (apiToolExecute (APIInputSchema.mk ["q"] [("q", some "query")]) "full" []
      (Except.ok (Json.obj [])) []).1.success = false :=
  ⟨by decide,
   (c8_required_validation (APIInputSchema.mk ["q"] [("q", some "query")]) "full" []
      (Except.ok (Json.obj [])) [] (by decide)).1,
   (c8_required_validation (APIInputSchema.mk ["q"] [("q", some "query")]) "full" []
      (Except.ok (Json.obj [])) [] (by decide)).2.1⟩

/-- Claim C9: at the self-imposed quota (window counter 1500) the body of
`_check_rate_limit` raises the rate-limit exception, but the method's own
blanket `except Exception` (meant for Redis outages) swallows it, so no
error surfaces and `_make_authenticated_request` proceeds to issue the
request anyway — contradicting the method's documented behavior. -/
theorem c9_rate_limit_swallowed :
    checkRateLimitBody 1500 =
      Except.error "Rate limit exceeded. Please wait before making more requests." ∧
    checkRateLimit 1500 = (1500, none) ∧
    platformRequestIssued 1500 = true :=
  ⟨rfl, rfl, rfl⟩

/-- Claim C1 counterexample: with a provider whose single turn requests
sixteen tool calls, the execution runs all sixteen (sixteen
`tool_use_complete` events), exceeding the cap of 15 — the stop condition is
only checked between turns — though the loop then does stop with the
partial-progress message. -/
theorem c1_counterexample :
    countToolCompletes
      (executeConversation true (some "key") demoWideProvider demoOkTools
        ProviderType.anthropic [] "go").1 = 16 ∧
    ¬ countToolCompletes
        (executeConversation true (some "key") demoWideProvider demoOkTools
          ProviderType.anthropic [] "go").1 ≤ 15 ∧
    (executeConversation true (some "key") demoWideProvider demoOkTools
      ProviderType.anthropic [] "go").2 = iterationLimitFinalMsg := by
  refine ⟨rfl, ?_, rfl⟩
  rw [show countToolCompletes
      (executeConversation true (some "key") demoWideProvider demoOkTools
        ProviderType.anthropic [] "go").1 = 16 from rfl]
  omega

/-- Claim C1 (amended): the loop runs at most 15 model turns (the iteration
fuel), and at the first between-turn check where
`len(all_tool_calls) + len(tool_uses)` reaches 15 — a value that counts the
just-finished turn's calls twice, since the audit trail already holds them —
the loop stops gracefully: the final response is the partial-progress
message, no further turn is requested, no `error` event is emitted, and the
abort message is streamed as the last `content_delta`.  Within a turn,
however, every requested call is executed, so executed calls can exceed the
cap. -/
theorem c1_amended (provider : Provider) (tools : ToolTable) (ptype : ProviderType)
    (fuel : Nat) (st : LoopState)
    (h0 : (turnAccOf provider tools st).toolUses.length ≠ 0)
    (h6 : ¬ 6 ≤ maxFailureCount (turnAccOf provider tools st).st.toolFailureCounts)
    (h15 : 15 ≤ turnTotalToolCalls (turnAccOf provider tools st)) :
    ((runLoop provider tools ptype 15 st).1).length ≤ 15 ∧
    (runLoop provider tools ptype (fuel + 1) st).2.1 = iterationLimitFinalMsg ∧
    ((runLoop provider tools ptype (fuel + 1) st).1).map TurnRec.nextMessages = [none] ∧
    countErrorEvents (loopEvents (runLoop provider tools ptype (fuel + 1) st).1) = 0 ∧
    ∃ evs, loopEvents (runLoop provider tools ptype (fuel + 1) st).1
      = evs ++ [ExecEvent.contentDelta iterationLimitFinalMsg] := by
  refine ⟨runLoop_turns_length provider tools ptype 15 st, ?_, ?_,
    countErrorEvents_runLoop provider tools ptype (fuel + 1) st, ?_⟩
  · rw [runLoop_succ_cap_stop provider tools ptype fuel st h0 h6 h15]
  · rw [runLoop_succ_cap_stop provider tools ptype fuel st h0 h6 h15]
    rfl
  · rw [runLoop_succ_cap_stop provider tools ptype fuel st h0 h6 h15]
    rw [loopEvents_cons, loopEvents_nil, List.append_nil]
    exact ⟨turnEventsWithComplete (turnAccOf provider tools st), rfl⟩

/-- Claim C1 witness: the sixteen-calls-in-one-turn scenario satisfies the
amended theorem's hypotheses, and the loop indeed stops with the
partial-progress message after that turn. -/
theorem c1_amended_witness :
    (turnAccOf demoWideProvider demoOkTools demoInitState).toolUses.length ≠ 0 ∧
    ¬ 6 ≤ maxFailureCount (turnAccOf demoWideProvider demoOkTools demoInitState).st.toolFailureCounts ∧
    15 ≤ turnTotalToolCalls (turnAccOf demoWideProvider demoOkTools demoInitState) ∧
    (runLoop demoWideProvider demoOkTools ProviderType.anthropic 1 demoInitState).2.1
      = iterationLimitFinalMsg :=
  ⟨by decide, by decide, by decide,
   (c1_amended demoWideProvider demoOkTools ProviderType.anthropic 0 demoInitState
      (by decide) (by decide) (by decide)).2.1⟩

/-- Claim C2 counterexample: the tool `a` fails exactly six times in a row
(the first six of its completed calls all fail) but then succeeds within the
same turn, before the end-of-turn check; its counter is reset, so the loop
does not abort and does not emit the message naming `a` — the execution ends
normally with the next turn's plain answer. -/
theorem c2_counterexample :
    ((toolCompleteResultsFor
        (executeConversation true (some "key") demoStreakProvider demoStreakTools
          ProviderType.anthropic [] "go").1 "a").take 6).all
      (fun r => !r.success) = true ∧
    (toolCompleteResultsFor
      (executeConversation true (some "key") demoStreakProvider demoStreakTools
        ProviderType.anthropic [] "go").1 "a").length = 7 ∧
    (executeConversation true (some "key") demoStreakProvider demoStreakTools
      ProviderType.anthropic [] "go").2 = "done" ∧
    (executeConversation true (some "key") demoStreakProvider demoStreakTools
      ProviderType.anthropic [] "go").1.countP
      (fun e => match e with
        | ExecEvent.contentDelta s => s == toolFailureFinalMsg "a"
        | _ => false) = 0 :=
  ⟨rfl, rfl, rfl, rfl⟩

/-- Claim C2 (amended): a tool call's failure increments that tool's
consecutive-failure counter and a success resets it to zero, while other
tools' counters are untouched; when, at an end-of-turn check, some tool's
counter is at least 6, the loop aborts gracefully — the final response is
the message naming the first such tool (in order of first use), no further
turn is requested, no `error` event is emitted, and the abort message is
streamed as the last `content_delta`.  Failures only abort at the check, so
a same-turn success after six straight failures cancels the abort. -/
theorem c2_amended (provider : Provider) (tools : ToolTable) (ptype : ProviderType)
    (fuel : Nat) (st : LoopState)
    (h0 : (turnAccOf provider tools st).toolUses.length ≠ 0)
    (h6 : 6 ≤ maxFailureCount (turnAccOf provider tools st).st.toolFailureCounts) :
    (runLoop provider tools ptype (fuel + 1) st).2.1
      = toolFailureFinalMsg
          (firstFailingTool (turnAccOf provider tools st).st.toolFailureCounts) ∧
    ((runLoop provider tools ptype (fuel + 1) st).1).map TurnRec.nextMessages = [none] ∧
    countErrorEvents (loopEvents (runLoop provider tools ptype (fuel + 1) st).1) = 0 ∧
    (∃ evs, loopEvents (runLoop provider tools ptype (fuel + 1) st).1
      = evs ++ [ExecEvent.contentDelta
          (toolFailureFinalMsg
            (firstFailingTool (turnAccOf provider tools st).st.toolFailureCounts))]) ∧
    (∀ (acc : TurnAcc) (id name : String) (input : Json),
       (executeTool tools name input).success = true →
       assocLookup
         ((processStreamEvent tools acc (StreamEvent.toolUseStart id name input)).st.toolFailureCounts)
         name = some 0) ∧
    (∀ (acc : TurnAcc) (id name : String) (input : Json),
       (executeTool tools name input).success = false →
       assocLookup
         ((processStreamEvent tools acc (StreamEvent.toolUseStart id name input)).st.toolFailureCounts)
         name = some (((assocLookup acc.st.toolFailureCounts name).getD 0) + 1)) ∧
    (∀ (acc : TurnAcc) (id name other : String) (input : Json),
       name ≠ other →
       assocLookup
         ((processStreamEvent tools acc (StreamEvent.toolUseStart id name input)).st.toolFailureCounts)
         other = assocLookup acc.st.toolFailureCounts other) := by
  refine ⟨?_, ?_, countErrorEvents_runLoop provider tools ptype (fuel + 1) st, ?_, ?_, ?_, ?_⟩
  · rw [runLoop_succ_fail_stop provider tools ptype fuel st h0 h6]
  · rw [runLoop_succ_fail_stop provider tools ptype fuel st h0 h6]
    rfl
  · rw [runLoop_succ_fail_stop provider tools ptype fuel st h0 h6]
    rw [loopEvents_cons, loopEvents_nil, List.append_nil]
    exact ⟨turnEventsWithComplete (turnAccOf provider tools st), rfl⟩
  · intro acc id name input hs
    simp only [processStreamEvent]
    simp [hs, assocLookup_updAssoc_self]
  · intro acc id name input hs
    simp only [processStreamEvent]
    simp [hs, assocLookup_updAssoc_self]
  · intro acc id name other input hne
    simp only [processStreamEvent]
    by_cases hs : (executeTool tools name input).success <;>
      simp [hs, assocLookup_updAssoc_of_ne _ _ hne]

/-- Claim C2 witness: a turn in which the tool `b` fails six straight times
satisfies the amended theorem's hypotheses, and the loop aborts with the
message naming `b`. -/
theorem c2_amended_witness :
    (turnAccOf demoFailProvider demoFailTools demoInitState).toolUses.length ≠ 0 ∧
    6 ≤ maxFailureCount (turnAccOf demoFailProvider demoFailTools demoInitState).st.toolFailureCounts ∧
    (runLoop demoFailProvider demoFailTools ProviderType.anthropic 1 demoInitState).2.1
      = toolFailureFinalMsg "b" :=
  ⟨by decide, by decide,
   (c2_amended demoFailProvider demoFailTools ProviderType.anthropic 0 demoInitState
      (by decide) (by decide)).1⟩

/-- Claim C3: in every execution of the loop, each turn record shows that
every tool call discovered in that turn's stream was executed, in discovery
order, with the result of `_execute_tool` (first conjunct); the
`tool_use_start` and `tool_use_complete` events appear in that same order
(second and third conjuncts); whenever a next turn's message list exists it
extends the turn's starting messages with exactly one appended result entry
per executed call, in the same order (fourth conjunct); and consecutive turn
records are linked so that a new model turn is requested only with the
history that already holds those results (the chain). -/
theorem c3_tool_call_ordering (provider : Provider) (tools : ToolTable)
    (ptype : ProviderType) :
    ∀ (fuel : Nat) (st : LoopState),
      (∀ t ∈ (runLoop provider tools ptype fuel st).1,
         t.toolUses = streamToolUses tools (provider t.startMessages) ∧
         toolStartPairs t.events = t.toolUses.map (fun tu => (tu.name, tu.input)) ∧
         toolCompletePairs t.events = t.toolUses.map (fun tu => (tu.name, tu.result)) ∧
         ∀ m', t.nextMessages = some m' →
           resultIds m' = resultIds t.startMessages ++ t.toolUses.map (fun tu => tu.id) ∧
           ∃ suffix, m' = t.startMessages ++ suffix) ∧
      List.Chain' (fun a b => a.nextMessages = some b.startMessages)
        (runLoop provider tools ptype fuel st).1 := by
  intro fuel
  induction fuel with
  | zero =>
      intro st
      refine ⟨fun t ht => absurd ht ?_, ?_⟩
      · simp [runLoop]
      · exact List.chain'_nil
  | succ fuel ih =>
      intro st
      by_cases h0 : (turnAccOf provider tools st).toolUses.length = 0
      · refine ⟨?_, ?_⟩
        · intro t ht
          rw [runLoop_succ_no_tools provider tools ptype fuel st h0,
            List.mem_singleton] at ht
          subst ht
          refine ⟨turnAccOf_toolUses provider tools st, ?_, ?_, ?_⟩
          · show toolStartPairs (turnAccOf provider tools st).events = _
            rw [toolStartPairs_turnAccOf, turnAccOf_toolUses]
          · show toolCompletePairs (turnAccOf provider tools st).events = _
            rw [toolCompletePairs_turnAccOf, turnAccOf_toolUses]
          · intro m' hm
            exact Option.noConfusion hm
        · rw [runLoop_succ_no_tools provider tools ptype fuel st h0]
          exact List.chain'_singleton _
      · by_cases h6 : 6 ≤ maxFailureCount (turnAccOf provider tools st).st.toolFailureCounts
        · refine ⟨?_, ?_⟩
          · intro t ht
            rw [runLoop_succ_fail_stop provider tools ptype fuel st h0 h6,
              List.mem_singleton] at ht
            subst ht
            refine ⟨turnAccOf_toolUses provider tools st, ?_, ?_, ?_⟩
            · show toolStartPairs
                (turnEventsWithComplete (turnAccOf provider tools st) ++ _) = _
              rw [toolStartPairs_append, toolStartPairs_turnEventsWithComplete,
                turnAccOf_toolUses]
              simp [toolStartPairs]
            · show toolCompletePairs
                (turnEventsWithComplete (turnAccOf provider tools st) ++ _) = _
              rw [toolCompletePairs_append, toolCompletePairs_turnEventsWithComplete,
                turnAccOf_toolUses]
              simp [toolCompletePairs]
            · intro m' hm
              exact Option.noConfusion hm
          · rw [runLoop_succ_fail_stop provider tools ptype fuel st h0 h6]
            exact List.chain'_singleton _
        · by_cases h15 : 15 ≤ turnTotalToolCalls (turnAccOf provider tools st)
          · refine ⟨?_, ?_⟩
            · intro t ht
              rw [runLoop_succ_cap_stop provider tools ptype fuel st h0 h6 h15,
                List.mem_singleton] at ht
              subst ht
              refine ⟨turnAccOf_toolUses provider tools st, ?_, ?_, ?_⟩
              · show toolStartPairs
                  (turnEventsWithComplete (turnAccOf provider tools st) ++ _) = _
                rw [toolStartPairs_append, toolStartPairs_turnEventsWithComplete,
                  turnAccOf_toolUses]
                simp [toolStartPairs]
              · show toolCompletePairs
                  (turnEventsWithComplete (turnAccOf provider tools st) ++ _) = _
                rw [toolCompletePairs_append, toolCompletePairs_turnEventsWithComplete,
                  turnAccOf_toolUses]
                simp [toolCompletePairs]
              · intro m' hm
                exact Option.noConfusion hm
            · rw [runLoop_succ_cap_stop provider tools ptype fuel st h0 h6 h15]
              exact List.chain'_singleton _
          · refine ⟨?_, ?_⟩
            · intro t ht
              rw [runLoop_succ_continue provider tools ptype fuel st h0 h6 h15,
                List.mem_cons] at ht
              rcases ht with ht | ht
              · subst ht
                refine ⟨turnAccOf_toolUses provider tools st, ?_, ?_, ?_⟩
                · show toolStartPairs
                    (turnEventsWithComplete (turnAccOf provider tools st)) = _
                  rw [toolStartPairs_turnEventsWithComplete, turnAccOf_toolUses]
                · show toolCompletePairs
                    (turnEventsWithComplete (turnAccOf provider tools st)) = _
                  rw [toolCompletePairs_turnEventsWithComplete, turnAccOf_toolUses]
                · intro m' hm
                  have hm' : m' = nextMessagesOf ptype st (turnAccOf provider tools st) := by
                    injection hm with h
                    exact h.symm
                  subst hm'
                  constructor
                  · show resultIds
                      (nextMessagesOf ptype st (turnAccOf provider tools st)) = _
                    unfold nextMessagesOf
                    rw [resultIds_appendTurnMessages]
                  · unfold nextMessagesOf
                    exact appendTurnMessages_suffix ptype _ _ _ _ _ _ _
              · exact (ih _).1 t ht
            · rw [runLoop_succ_continue provider tools ptype fuel st h0 h6 h15,
                List.chain'_cons']
              refine ⟨?_, (ih _).2⟩
              intro b hb
              cases hrest : (runLoop provider tools ptype fuel
                  { (turnAccOf provider tools st).st with
                    conversationMessages :=
                      nextMessagesOf ptype st (turnAccOf provider tools st) }).1 with
              | nil => rw [hrest] at hb; simp at hb
              | cons b' tail =>
                  rw [hrest] at hb
                  simp only [List.head?_cons, Option.mem_def, Option.some.injEq] at hb
                  subst hb
                  show some (nextMessagesOf ptype st (turnAccOf provider tools st))
                    = some b'.startMessages
                  rw [runLoop_head_startMessages provider tools ptype fuel _ b' tail hrest]

/-- Claim C3 witness: in the one-call scenario the first turn record of the
execution exists and its executed tool uses are exactly the stream's
discovered calls with their `_execute_tool` results. -/
theorem c3_tool_call_ordering_witness :
    firstTurn (runLoop demoOneCallProvider demoEchoTools ProviderType.anthropic 15
        demoInitState).1
      ∈ (runLoop demoOneCallProvider demoEchoTools ProviderType.anthropic 15
          demoInitState).1 ∧
    (firstTurn (runLoop demoOneCallProvider demoEchoTools ProviderType.anthropic 15
        demoInitState).1).toolUses
      = streamToolUses demoEchoTools
          (demoOneCallProvider
            (firstTurn (runLoop demoOneCallProvider demoEchoTools
                ProviderType.anthropic 15 demoInitState).1).startMessages) := by
  have hmem : firstTurn (runLoop demoOneCallProvider demoEchoTools
      ProviderType.anthropic 15 demoInitState).1
      ∈ (runLoop demoOneCallProvider demoEchoTools ProviderType.anthropic 15
          demoInitState).1 :=
    List.mem_cons_self _ _
  exact ⟨hmem,
    ((c3_tool_call_ordering demoOneCallProvider demoEchoTools ProviderType.anthropic
        15 demoInitState).1 _ hmem).1⟩

/-- Claim C4: an unregistered tool name and a raising tool are both converted
by `_execute_tool` into `{success: false, error}` results (first two
conjuncts); an execution whose agent and API key are present emits no
`error` event at all, whatever the tools do — including raising tools
(third conjunct); and the two configuration failures produce a single
terminal `error` event ending the trace (last two conjuncts). -/
theorem c4_error_containment :
    (∀ (tools : ToolTable) (name : String) (input : Json),
       assocLookup tools name = none →
       executeTool tools name input
         = { success := false, error := some ("Tool " ++ name ++ " not found") }) ∧
    (∀ (tools : ToolTable) (impl : ToolImpl) (name : String) (input : Json) (e : String),
       assocLookup tools name = some impl →
       impl input = ToolOutcome.raise e →
       executeTool tools name input = { success := false, error := some e }) ∧
    (∀ (provider : Provider) (tools : ToolTable) (ptype : ProviderType)
        (history : List Msg) (userMessage key : String),
       countErrorEvents
         (executeConversation true (some key) provider tools ptype history
           userMessage).1 = 0) ∧
    (∀ (provider : Provider) (tools : ToolTable) (ptype : ProviderType)
        (history : List Msg) (userMessage : String) (apiKey : Option String),
       (executeConversation false apiKey provider tools ptype history userMessage).1
         = [ExecEvent.errorEvent "Agent not found"]) ∧
    (∀ (provider : Provider) (tools : ToolTable) (ptype : ProviderType)
        (history : List Msg) (userMessage : String),
       (executeConversation true none provider tools ptype history userMessage).1
         = [ExecEvent.agentLoaded, ExecEvent.conversationStarted,
            ExecEvent.errorEvent (apiKeyMissingMsg ptype)]) := by
  refine ⟨?_, ?_, ?_, ?_, ?_⟩
  · intro tools name input h
    simp [executeTool, h]
  · intro tools impl name input e h1 h2
    simp [executeTool, h1, h2]
  · intro provider tools ptype history userMessage key
    show countErrorEvents
      ([ExecEvent.agentLoaded, ExecEvent.conversationStarted] ++
        loopEvents (runLoop provider tools ptype 15
          ⟨history ++ [Msg.plain "user" userMessage], [], 0, [], []⟩).1 ++
        [ExecEvent.messageComplete]) = 0
    rw [countErrorEvents_append, countErrorEvents_append, countErrorEvents_runLoop]
    simp [countErrorEvents]
  · intro provider tools ptype history userMessage apiKey
    rfl
  · intro provider tools ptype history userMessage
    rfl

/-- Claim C4 witness: a lookup miss and a raising tool are both converted to
failure results, and an execution with a raising tool emits no `error`
event. -/
theorem c4_error_containment_witness :
    assocLookup demoEchoTools "missing" = none ∧
    executeTool demoEchoTools "missing" Json.null
      = { success := false, error := some "Tool missing not found" } ∧
    executeTool demoRaisingTools "s" Json.null
      = { success := false, error := some "kaboom" } ∧
    countErrorEvents
      (executeConversation true (some "key") demoOneCallProvider demoRaisingTools
        ProviderType.anthropic [] "go").1 = 0 :=
  ⟨rfl,
   c4_error_containment.1 demoEchoTools "missing" Json.null rfl,
   c4_error_containment.2.1 demoRaisingTools (fun _ => ToolOutcome.raise "kaboom")
     "s" Json.null "kaboom" rfl rfl,
   c4_error_containment.2.2.1 demoOneCallProvider demoRaisingTools
     ProviderType.anthropic [] "go" "key"⟩

end Melton
